import Mathlib

/-!
Verification of the Dodge repository (a pygame "Dodging Simulator").

The shallow embedding below follows `src/game_main.py` for everything that
file defines (`set_game_mode`, `initialize_game`, `render_game`'s nightmare
HUD arithmetic, `_load_assets`, the `run` loop).  Components that live in
the `Dodging_Simulator` package (strategies, observers, score manager,
singletons) are only imported by `game_main.py`; they are modelled from the
specification, and each such definition says so in its doc comment.

Times and spawn intervals are modelled in milliseconds as naturals
(`get_spawn_interval(0.0)` becomes `get_spawn_interval _ 0`); leaderboard
score values (elapsed seconds) are modelled as rationals.
-/

namespace Dodge

/-- Modelled from the spec: `DifficultyStrategy (variant: Normal, Nightmare)`,
a pure policy with "No mutable state beyond the mode name".  The Python
classes `NormalModeStrategy` / `NightmareModeStrategy` (not under `src/`)
also hold the event manager used for publishing, which plays no role in the
claims; the variant tag is the whole state. -/
inductive Strategy
  | normal
  | nightmare
  deriving DecidableEq, Repr

/-- Modelled from the spec: "Normal mode returns a constant" spawn interval,
"e.g., 1200 ms". -/
def normalSpawnInterval : Nat := 1200

/-- Modelled from the spec: the nightmare interval "decreases ... as elapsed
time grows, with a floor"; the exact curve is a design choice, so the model
fixes a representative base value. -/
def nightmareBaseInterval : Nat := 1000

/-- Modelled from the spec: the lower bound ("floor to prevent unplayable
spawn storms") of the nightmare spawn interval. -/
def nightmareFloorInterval : Nat := 250

/-- Modelled from the spec: `get_spawn_interval(elapsed_time) -> duration`.
Normal is constant; Nightmare is monotonically non-increasing in elapsed
time and bounded below by the floor.  Elapsed time is in milliseconds. -/
def Strategy.get_spawn_interval : Strategy → Nat → Nat
  | .normal, _ => normalSpawnInterval
  | .nightmare, t => max nightmareFloorInterval (nightmareBaseInterval - t / 100)

/-- Modelled from the spec: `get_mode_name() -> string`. -/
def Strategy.get_mode_name : Strategy → String
  | .normal => "normal"
  | .nightmare => "nightmare"

/-- Player entity: "position (x, y), health (integer, 0..max_health),
max_health (mode-dependent)".  Only the fields the claims touch are kept. -/
structure Player where
  x : Int
  y : Int
  health : Nat
  max_health : Nat
  deriving DecidableEq, Repr

/-- Modelled from the spec: `create_player() -> Player` "returns
mode-appropriate starting health/position"; concrete numbers are
representative mode-dependent values. -/
def Strategy.create_player : Strategy → Player
  | .normal => { x := 480, y := 270, health := 3, max_health := 3 }
  | .nightmare => { x := 480, y := 270, health := 1, max_health := 5 }

/-- Hazard entity as far as the claims need it (a list element that
`initialize_game` clears and `spawn_projectile` appends to). -/
structure EnhancedProjectile where
  x : Int
  y : Int
  deriving DecidableEq, Repr

/-- Modelled from the spec: `create_projectile() -> Hazard` routed through
the strategy; the weighted-random type choice is irrelevant to the claims,
so the model returns a hazard at a fixed entry position. -/
def Strategy.create_projectile : Strategy → EnhancedProjectile
  | .normal => { x := 0, y := 0 }
  | .nightmare => { x := 0, y := 0 }

/-- Warning indicator: "target position, countdown timer". -/
structure WarningIndicator where
  target_x : Int
  target_y : Int
  countdown : Nat
  deriving DecidableEq, Repr

/-- Modelled from the spec: `GameModeContext` "holds the currently active
DifficultyStrategy; all spawn/factory calls are routed through it.
Invariant: exactly one active strategy at any time". -/
structure GameModeContext where
  strategy : Strategy
  deriving DecidableEq, Repr

/-- Modelled from the spec: `set_strategy` replaces the held strategy
("swappable at runtime (strategy pattern)").  The context itself has no
notion of a run being in progress; any mid-run guard would live in its
callers. -/
def set_strategy (c : GameModeContext) (s : Strategy) : GameModeContext :=
  { c with strategy := s }

/-- Context routing of `get_spawn_interval`. -/
def GameModeContext.get_spawn_interval (c : GameModeContext) (t : Nat) : Nat :=
  c.strategy.get_spawn_interval t

/-- Context routing of `create_player`. -/
def GameModeContext.create_player (c : GameModeContext) : Player :=
  c.strategy.create_player

/-- Context routing of `create_projectile`. -/
def GameModeContext.create_projectile (c : GameModeContext) : EnhancedProjectile :=
  c.strategy.create_projectile

/-- Context routing of `get_mode_name`. -/
def GameModeContext.get_mode_name (c : GameModeContext) : String :=
  c.strategy.get_mode_name

/-- Modelled from the spec: the `GameState` singleton, a "process-wide record"
with the "current mode name" and the "`game_running` flag controlling the
loop's continuation". -/
structure GameState where
  mode : String
  game_running : Bool
  deriving DecidableEq, Repr

/-- Modelled from the spec: `GameState.set_mode` records the mode name. -/
def set_mode (s : GameState) (mode : String) : GameState :=
  { s with mode := mode }

/-- Domain events: "an event is a tagged record `{kind, payload}` with kinds
{ProjectileDodged, PlayerHit, HeartRestored, RunEnded}"; RunEnded carries
the final elapsed time and the mode for leaderboard submission. -/
inductive GameEvent
  | projectileDodged
  | playerHit
  | heartRestored
  | runEnded (elapsed : ℚ) (mode : String)
  deriving DecidableEq, Repr

/-- Whether an event is a RunEnded event. -/
def GameEvent.isRunEnded : GameEvent → Bool
  | .runEnded _ _ => true
  | _ => false

/-- Modelled from the spec: `StatsObserver state`: "per-run counters
(hearts_restored, projectiles_dodged)". -/
structure StatsObserver where
  hearts_restored : Nat
  projectiles_dodged : Nat
  deriving DecidableEq, Repr

/-- Modelled from the spec: `StatsObserver.reset()` zeroes `hearts_restored`
and `projectiles_dodged`. -/
def StatsObserver.reset (_s : StatsObserver) : StatsObserver :=
  { hearts_restored := 0, projectiles_dodged := 0 }

/-- Modelled from the spec: "StatsObserver increments counters on
ProjectileDodged/HeartRestored"; every attached observer receives every
event and ignores the kinds it does not track. -/
def StatsObserver.update (s : StatsObserver) : GameEvent → StatsObserver
  | .projectileDodged => { s with projectiles_dodged := s.projectiles_dodged + 1 }
  | .heartRestored => { s with hearts_restored := s.hearts_restored + 1 }
  | _ => s

/-- Modelled from the spec: `ScoreManager / persisted leaderboard`: "mapping
from mode name → ordered sequence of top N elapsed-time scores (descending)".
The durable-storage write-through is outside the embedding; the mapping is
the persisted state. -/
structure ScoreManager where
  scores : String → List ℚ

/-- Descending sort used by the leaderboard ("appended-to and re-sorted on
RunEnded", kept "descending"). -/
def sortDesc (l : List ℚ) : List ℚ :=
  List.insertionSort (· ≥ ·) l

/-- Modelled from the spec: on RunEnded the score observer "inserts it into
the persisted leaderboard for the active mode, truncates to top-N (N=5 by
default)". -/
def ScoreManager.submit_score (sm : ScoreManager) (mode : String) (t : ℚ) :
    ScoreManager :=
  { scores := fun m =>
      if m = mode then (sortDesc (t :: sm.scores mode)).take 5 else sm.scores m }

/-- Modelled from the spec: `top_scores(n, mode) -> ordered sequence of time
values, descending`. -/
def ScoreManager.top_scores (sm : ScoreManager) (n : Nat) (mode : String) :
    List ℚ :=
  (sortDesc (sm.scores mode)).take n

/-- Modelled from the spec: the ScoreObserver reacts only to RunEnded
("ScoreObserver, on RunEnded, computes elapsed survival time, inserts it"). -/
def ScoreManager.update (sm : ScoreManager) : GameEvent → ScoreManager
  | .runEnded t mode => sm.submit_score mode t
  | _ => sm

/-- Folding a sequence of published events into the score manager, in
publication order. -/
def applyEvents (sm : ScoreManager) (events : List GameEvent) : ScoreManager :=
  events.foldl ScoreManager.update sm

/-- The mutable state of `DodgingSimulatorGame` (src/game_main.py) that the
claims touch: the strategy context, the `GameState` singleton, the two
observers, the game objects, and the spawn interval seeded by
`initialize_game` (the argument `pygame.time.set_timer` receives). -/
structure Game where
  game_mode_context : GameModeContext
  game_state : GameState
  stats_observer : StatsObserver
  score_manager : ScoreManager
  player : Option Player
  projectiles : List EnhancedProjectile
  warning_indicators : List WarningIndicator
  current_spawn_interval : Nat

/-- Strategy selection of `set_game_mode` (src/game_main.py lines 114-119):
the `if mode == "normal" / elif mode == "nightmare" / else raise ValueError`
chain, evaluated before any mutation. -/
def select_strategy (mode : String) : Except String Strategy :=
  if mode = "normal" then Except.ok Strategy.normal
  else if mode = "nightmare" then Except.ok Strategy.nightmare
  else Except.error ("Unknown game mode: " ++ mode)

/-- The mutation tail of `set_game_mode` (src/game_main.py lines 121-122):
`self.game_mode_context.set_strategy(strategy)` then
`self.game_state.set_mode(mode)`. -/
def apply_mode (g : Game) (strategy : Strategy) (mode : String) : Game :=
  let g1 := { g with game_mode_context := set_strategy g.game_mode_context strategy }
  { g1 with game_state := set_mode g1.game_state mode }

/-- `set_game_mode` (src/game_main.py lines 112-122): select the strategy for
the mode name, raising `ValueError` for an unknown name before any mutation;
otherwise install the strategy and record the mode. -/
def set_game_mode (g : Game) (mode : String) : Except String Game :=
  (select_strategy mode).map (fun strategy => apply_mode g strategy mode)

/-- The state of the game object after a `set_game_mode` call whose exception,
if any, was caught by the session: a raised `ValueError` leaves the Python
object exactly as it was. -/
def set_game_mode_caught (g : Game) (mode : String) : Game :=
  match set_game_mode g mode with
  | .ok g2 => g2
  | .error _ => g

/-- `initialize_game` (src/game_main.py lines 124-139), in source order:
reset the stats observer, create the player through the strategy context,
clear projectiles and warning indicators, read the spawn interval from the
active strategy at elapsed time 0.0 and store it (the same value is handed
to `pygame.time.set_timer`). -/
def initialize_game (g : Game) : Game :=
  let g1 := { g with stats_observer := g.stats_observer.reset }
  let g2 := { g1 with player := some g1.game_mode_context.create_player }
  let g3 := { g2 with projectiles := [], warning_indicators := [] }
  let spawn_interval := g3.game_mode_context.get_spawn_interval 0
  { g3 with current_spawn_interval := spawn_interval }

/-- `spawn_projectile` (src/game_main.py lines 141-144): create a projectile
through the strategy context and append it. -/
def spawn_projectile (g : Game) : Game :=
  { g with projectiles := g.projectiles ++ [g.game_mode_context.create_projectile] }

/-- Modelled from the spec: `publish(event)` of the event manager with the
two observers attached in src/game_main.py lines 68-69 (`score_observer`
then `stats_observer`); "every attached observer's handler runs to
completion before publish returns, in attachment order". -/
def publish (g : Game) (e : GameEvent) : Game :=
  let g1 := { g with score_manager := g.score_manager.update e }
  { g1 with stats_observer := g1.stats_observer.update e }

/-- Modelled from the spec: "entering GameOver captures the final elapsed
time and mode for leaderboard submission" and publishes RunEnded (the
Playing→GameOver transition code is not under src/).  It does not touch the
stats observer. -/
def transition_to_game_over (g : Game) (elapsed : ℚ) : Game :=
  publish g (GameEvent.runEnded elapsed g.game_mode_context.get_mode_name)

/-- The nightmare-HUD threshold of `render_game` (src/game_main.py line 168):
`hearts_needed = 75 if self.stats_observer.hearts_restored == 0 else 150`. -/
def hearts_needed (hearts_restored : Nat) : Nat :=
  if hearts_restored = 0 then 75 else 150

/-- The displayed next-heart target of `render_game` (src/game_main.py line
169): `next_heart_at = hearts_needed * (self.stats_observer.hearts_restored
+ 1)`. -/
def next_heart_at (hearts_restored : Nat) : Nat :=
  hearts_needed hearts_restored * (hearts_restored + 1)

/-- The HUD data `render_game` (src/game_main.py lines 166-170) passes to
`HUD.draw_nightmare_stats`: only in nightmare mode, the dodge counter and
the next-heart target. -/
def hud_nightmare_stats (g : Game) : Option (Nat × Nat) :=
  if g.game_mode_context.get_mode_name = "nightmare" then
    some (g.stats_observer.projectiles_dodged,
          next_heart_at g.stats_observer.hearts_restored)
  else none

/-- A concrete game state as built by `DodgingSimulatorGame.__init__`
(src/game_main.py lines 36-87): Normal strategy installed, `GameState`
running, empty observers and object lists, no player yet. -/
def initialGame : Game :=
  { game_mode_context := { strategy := Strategy.normal }
    game_state := { mode := "normal", game_running := true }
    stats_observer := { hearts_restored := 0, projectiles_dodged := 0 }
    score_manager := { scores := fun _ => [] }
    player := none
    projectiles := []
    warning_indicators := []
    current_spawn_interval := 0 }

/-- The background image after `_load_assets` (src/game_main.py lines 89-98):
either the file image scaled to the window, or a solid-colour surface. -/
inductive BackgroundImage
  | scaled (path : String)
  | solid (color : Nat × Nat × Nat)
  deriving DecidableEq, Repr

/-- The game's background colour (`BACKGROUND_COLOR` in the config module;
the value appears in src/create_icon.py as `background_color = (12, 12, 16)`). -/
def BACKGROUND_COLOR : Nat × Nat × Nat := (12, 12, 16)

/-- The outcome of `pygame.image.load(BACKGROUND_IMAGE)`: the loaded file, or
a `pygame.error` / `FileNotFoundError`. -/
inductive LoadResult
  | ok (path : String)
  | error
  deriving DecidableEq, Repr

/-- `_load_assets` (src/game_main.py lines 89-98): on success scale the
loaded image to the window; on a load error print a warning and substitute a
fallback surface filled with `BACKGROUND_COLOR`.  The function is total: a
failed load is never propagated. -/
def load_assets : LoadResult → BackgroundImage
  | .ok path => .scaled path
  | .error => .solid BACKGROUND_COLOR

/-- A decoded pygame event as seen by the `run` loop (src/game_main.py lines
221-225): either `pygame.QUIT` or any other event, which is forwarded to
`handle_event`.  The payload stands for the event's content. -/
inductive PEvent
  | quit
  | other (code : Nat)
  deriving DecidableEq, Repr

/-- The loop-visible state of `run` (src/game_main.py): the `self.running`
flag, plus the rest of the game object abstracted to a type `σ` (the
state-machine code that `handle_event` / `update` dispatch to is not under
src/). -/
structure LoopState (σ : Type) where
  running : Bool
  gstate : σ
  deriving DecidableEq, Repr

/-- The event-drain of one tick (src/game_main.py lines 221-225): `QUIT` sets
`self.running = False`; every other event goes to `self.handle_event`, which
never touches `self.running`. -/
def process_events {σ : Type} (handle : σ → Nat → σ) :
    LoopState σ → List PEvent → LoopState σ
  | st, [] => st
  | st, PEvent.quit :: rest =>
      process_events handle { st with running := false } rest
  | st, PEvent.other code :: rest =>
      process_events handle { st with gstate := handle st.gstate code } rest

/-- The `while self.running and self.game_state.game_running` loop of `run`
(src/game_main.py lines 215-232) over a finite script of per-tick event
batches, returning how many tick bodies were dispatched.  `handle` and
`update` are the state-machine dispatches (not under src/); `gr` reads the
`game_running` flag out of the abstracted state; neither dispatch can touch
`self.running`, which only the `QUIT` branch writes. -/
def run_loop {σ : Type} (handle : σ → Nat → σ) (update : σ → σ)
    (gr : σ → Bool) : LoopState σ → List (List PEvent) → Nat
  | _, [] => 0
  | st, batch :: rest =>
      if st.running && gr st.gstate then
        run_loop handle update gr
          { running := (process_events handle st batch).running,
            gstate := update (process_events handle st batch).gstate } rest + 1
      else 0

/-- Modelled from the spec: the Playing-state spawn poll (the state-machine
update code is not under src/; src/game_main.py only seeds the interval and
a recurring timer in `initialize_game`).  Per §4.6/§5(b): a countdown,
compared against the wall-clock delta each tick; on expiry the spawn fires
and the countdown is re-read from the active strategy at the current elapsed
time, without restarting the run's elapsed clock.  Times in milliseconds. -/
structure SpawnClock where
  elapsed : Nat
  timer : Nat
  deriving DecidableEq, Repr

/-- Modelled from the spec: one polled tick of the spawn countdown.  Returns
the new clock and whether spawn logic was invoked this tick. -/
def spawn_tick (strat : Strategy) (c : SpawnClock) (dt : Nat) :
    SpawnClock × Bool :=
  let elapsed := c.elapsed + dt
  if c.timer ≤ dt then
    ({ elapsed := elapsed, timer := strat.get_spawn_interval elapsed }, true)
  else
    ({ elapsed := elapsed, timer := c.timer - dt }, false)

/-- A sample leaderboard state used to instantiate leaderboard theorems. -/
def sampleScores : ScoreManager :=
  { scores := fun m => if m = "normal" then [3, 10, 7] else [] }

/-! Helper lemmas (shared; none of them is a claim's theorem). -/

/-- An unknown mode name makes `set_game_mode` raise before any mutation. -/
theorem set_game_mode_unknown (g : Game) (mode : String)
    (h1 : mode ≠ "normal") (h2 : mode ≠ "nightmare") :
    set_game_mode g mode = Except.error ("Unknown game mode: " ++ mode) := by
  unfold set_game_mode select_strategy
  rw [if_neg h1, if_neg h2]
  rfl

/-- Publishing an event that is not RunEnded leaves the score manager
unchanged. -/
theorem ScoreManager.update_of_not_runEnded (sm : ScoreManager)
    (e : GameEvent) (he : e.isRunEnded = false) : sm.update e = sm := by
  cases e with
  | runEnded t mode => simp [GameEvent.isRunEnded] at he
  | projectileDodged => rfl
  | playerHit => rfl
  | heartRestored => rfl

/-- Publishing a sequence of events none of which is RunEnded leaves the
score manager unchanged. -/
theorem applyEvents_of_no_runEnded (events : List GameEvent)
    (h : ∀ e ∈ events, e.isRunEnded = false) :
    ∀ sm : ScoreManager, applyEvents sm events = sm := by
  induction events with
  | nil => intro sm; rfl
  | cons e rest ih =>
      intro sm
      have he : e.isRunEnded = false := h e (List.mem_cons_self e rest)
      have hrest : ∀ x ∈ rest, x.isRunEnded = false :=
        fun x hx => h x (List.mem_cons_of_mem e hx)
      calc applyEvents sm (e :: rest)
          = applyEvents (sm.update e) rest := rfl
        _ = applyEvents sm rest := by
              rw [ScoreManager.update_of_not_runEnded sm e he]
        _ = sm := ih hrest sm

/-- Draining a tick's events never sets `self.running` back to true. -/
theorem process_events_running_false {σ : Type} (handle : σ → Nat → σ) :
    ∀ (batch : List PEvent) (st : LoopState σ), st.running = false →
      (process_events handle st batch).running = false := by
  intro batch
  induction batch with
  | nil => intro st h; exact h
  | cons e rest ih =>
      intro st h
      cases e with
      | quit => exact ih _ rfl
      | other code => exact ih _ h

/-- A tick whose event batch contains `QUIT` leaves `self.running` false. -/
theorem process_events_quit {σ : Type} (handle : σ → Nat → σ) :
    ∀ (batch : List PEvent) (st : LoopState σ), PEvent.quit ∈ batch →
      (process_events handle st batch).running = false := by
  intro batch
  induction batch with
  | nil => intro st h; cases h
  | cons e rest ih =>
      intro st h
      cases e with
      | quit => exact process_events_running_false handle rest _ rfl
      | other code =>
          have hmem : PEvent.quit ∈ rest := by
            cases h with
            | tail _ hm => exact hm
          exact ih _ hmem

/-- The loop dispatches no tick once its condition fails. -/
theorem run_loop_eq_zero {σ : Type} (handle : σ → Nat → σ) (update : σ → σ)
    (gr : σ → Bool) (st : LoopState σ) (script : List (List PEvent))
    (h : st.running = false ∨ gr st.gstate = false) :
    run_loop handle update gr st script = 0 := by
  cases script with
  | nil => rfl
  | cons batch rest =>
      have hc : (st.running && gr st.gstate) = false := by
        cases h with
        | inl h1 => rw [h1]; rfl
        | inr h2 => rw [h2, Bool.and_false]
      simp only [run_loop, hc]
      rfl

/-- A `QUIT` event in the event batch of tick `i` means no tick after tick
`i` is dispatched. -/
theorem run_loop_le_of_quit {σ : Type} (handle : σ → Nat → σ) (update : σ → σ)
    (gr : σ → Bool) :
    ∀ (script : List (List PEvent)) (st : LoopState σ) (i : Nat),
      PEvent.quit ∈ script.getD i [] →
      run_loop handle update gr st script ≤ i + 1 := by
  intro script
  induction script with
  | nil =>
      intro st i h
      simp [run_loop]
  | cons batch rest ih =>
      intro st i h
      by_cases hc : (st.running && gr st.gstate) = true
      · simp only [run_loop]
        rw [if_pos hc]
        cases i with
        | zero =>
            have hq : PEvent.quit ∈ batch := h
            have hrun : (process_events handle st batch).running = false :=
              process_events_quit handle batch st hq
            have hz : run_loop handle update gr
                { running := (process_events handle st batch).running,
                  gstate := update (process_events handle st batch).gstate }
                rest = 0 :=
              run_loop_eq_zero handle update gr
                { running := (process_events handle st batch).running,
                  gstate := update (process_events handle st batch).gstate }
                rest (Or.inl hrun)
            rw [hz]
        | succ j =>
            have hq : PEvent.quit ∈ rest.getD j [] := h
            have hrec := ih
              { running := (process_events handle st batch).running,
                gstate := update (process_events handle st batch).gstate }
              j hq
            omega
      · simp only [run_loop]
        rw [if_neg hc]
        omega

/-- A dispatched tick implies the loop condition held at its start. -/
theorem run_loop_pos {σ : Type} (handle : σ → Nat → σ) (update : σ → σ)
    (gr : σ → Bool) (st : LoopState σ) (script : List (List PEvent))
    (h : 0 < run_loop handle update gr st script) :
    st.running = true ∧ gr st.gstate = true := by
  cases hr : st.running with
  | false =>
      rw [run_loop_eq_zero handle update gr st script (Or.inl hr)] at h
      cases h
  | true =>
      cases hg : gr st.gstate with
      | false =>
          rw [run_loop_eq_zero handle update gr st script (Or.inr hg)] at h
          cases h
      | true => exact ⟨rfl, rfl⟩

/-! Claim theorems. -/

/-- Claim C1, counterexample to the claim as stated: with a run in progress
(`initialize_game` has run on the freshly constructed game), a
`set_game_mode "nightmare"` call is neither rejected nor deferred: it
returns normally and the active strategy in the context, through which all
spawn and factory calls route, is Nightmare immediately, as is the recorded
mode name. -/
theorem c1_counterexample_midrun_switch_takes_effect :
    (set_game_mode (initialize_game initialGame) "nightmare").isOk = true ∧
    (set_game_mode_caught (initialize_game initialGame)
        "nightmare").game_mode_context.strategy = Strategy.nightmare ∧
    (set_game_mode_caught (initialize_game initialGame)
        "nightmare").game_state.mode = "nightmare" :=
  ⟨rfl, rfl, rfl⟩

/-- Claim C1, amended: switching from Normal to Nightmare changes the
subsequent `get_spawn_interval 0` result (and the spawn interval that the
next `initialize_game` installs) to Nightmare's value, which differs from
Normal's; `set_game_mode` has no mid-run guard, so from any state, run in
progress or not, the call succeeds and installs the new strategy
immediately. -/
theorem c1_amended_mode_switch (g : Game)
    (hg : g.game_mode_context.strategy = Strategy.normal) :
    g.game_mode_context.get_spawn_interval 0 = normalSpawnInterval ∧
    set_game_mode g "nightmare" =
      Except.ok (set_game_mode_caught g "nightmare") ∧
    (set_game_mode_caught g "nightmare").game_mode_context.strategy =
      Strategy.nightmare ∧
    (set_game_mode_caught g "nightmare").game_mode_context.get_spawn_interval 0 =
      Strategy.nightmare.get_spawn_interval 0 ∧
    (initialize_game (set_game_mode_caught g "nightmare")).current_spawn_interval =
      Strategy.nightmare.get_spawn_interval 0 ∧
    Strategy.nightmare.get_spawn_interval 0 ≠ normalSpawnInterval := by
  refine ⟨?_, rfl, rfl, rfl, rfl, by decide⟩
  unfold GameModeContext.get_spawn_interval
  rw [hg]
  rfl

/-- Claim C1 witness: the amended theorem applied to the freshly constructed
game (Normal strategy active, before any `initialize_game`). -/
theorem c1_witness :
    initialGame.game_mode_context.strategy = Strategy.normal ∧
    initialGame.game_mode_context.get_spawn_interval 0 = normalSpawnInterval ∧
    (set_game_mode_caught initialGame
        "nightmare").game_mode_context.get_spawn_interval 0 =
      Strategy.nightmare.get_spawn_interval 0 :=
  ⟨rfl, (c1_amended_mode_switch initialGame rfl).1,
    (c1_amended_mode_switch initialGame rfl).2.2.2.1⟩

/-- Claim C2: for every leaderboard state and mode name, `top_scores 5 mode`
returns at most 5 entries, ordered descending, and publishing any sequence
of events containing no RunEnded between two calls leaves the returned
sequence unchanged. -/
theorem c2_top_scores_bounded_sorted_stable (sm : ScoreManager)
    (mode : String) (events : List GameEvent)
    (h : ∀ e ∈ events, e.isRunEnded = false) :
    (sm.top_scores 5 mode).length ≤ 5 ∧
    List.Sorted (· ≥ ·) (sm.top_scores 5 mode) ∧
    (applyEvents sm events).top_scores 5 mode = sm.top_scores 5 mode := by
  refine ⟨?_, ?_, ?_⟩
  · unfold ScoreManager.top_scores
    rw [List.length_take]
    exact min_le_left 5 _
  · unfold ScoreManager.top_scores sortDesc
    exact List.Pairwise.sublist (List.take_sublist 5 _)
      (List.sorted_insertionSort (· ≥ ·) (sm.scores mode))
  · rw [applyEvents_of_no_runEnded events h sm]

/-- Claim C2 witness: the theorem applied to a concrete three-entry
leaderboard and a published ProjectileDodged event. -/
theorem c2_witness :
    (∀ e ∈ [GameEvent.projectileDodged], e.isRunEnded = false) ∧
    (sampleScores.top_scores 5 "normal").length ≤ 5 ∧
    List.Sorted (· ≥ ·) (sampleScores.top_scores 5 "normal") ∧
    (applyEvents sampleScores [GameEvent.projectileDodged]).top_scores 5
        "normal" = sampleScores.top_scores 5 "normal" :=
  ⟨by decide,
    c2_top_scores_bounded_sorted_stable sampleScores "normal"
      [GameEvent.projectileDodged] (by decide)⟩

/-- Claim C3: an unknown mode name makes `set_game_mode` reject the request
by raising `ValueError` with a warning message, before any mutation, so the
session object keeps its previous strategy and mode after catching. -/
theorem c3_unknown_mode_rejected (g : Game) (mode : String)
    (h1 : mode ≠ "normal") (h2 : mode ≠ "nightmare") :
    set_game_mode g mode = Except.error ("Unknown game mode: " ++ mode) ∧
    (set_game_mode_caught g mode).game_mode_context = g.game_mode_context ∧
    (set_game_mode_caught g mode).game_state = g.game_state := by
  have hmain := set_game_mode_unknown g mode h1 h2
  refine ⟨hmain, ?_, ?_⟩ <;>
    · unfold set_game_mode_caught
      rw [hmain]

/-- Claim C3 witness: the theorem applied to the mode name "hard" on the
freshly constructed game. -/
theorem c3_witness :
    ("hard" ≠ "normal") ∧ ("hard" ≠ "nightmare") ∧
    set_game_mode initialGame "hard" =
      Except.error ("Unknown game mode: " ++ "hard") :=
  ⟨by decide, by decide,
    (c3_unknown_mode_rejected initialGame "hard" (by decide) (by decide)).1⟩

/-- Claim C4: the loop body runs only while `self.running` and
`game_running` both hold (a dispatched tick implies both held at its start,
and the loop dispatches nothing once either is cleared), and once a QUIT
event is observed in tick `i`'s batch no tick after `i` is dispatched. -/
theorem c4_loop_exit {σ : Type} (handle : σ → Nat → σ) (update : σ → σ)
    (gr : σ → Bool) (st : LoopState σ) (script : List (List PEvent))
    (i : Nat) (hq : PEvent.quit ∈ script.getD i []) :
    (st.running = false ∨ gr st.gstate = false →
      run_loop handle update gr st script = 0) ∧
    (0 < run_loop handle update gr st script →
      st.running = true ∧ gr st.gstate = true) ∧
    run_loop handle update gr st script ≤ i + 1 :=
  ⟨run_loop_eq_zero handle update gr st script,
    run_loop_pos handle update gr st script,
    run_loop_le_of_quit handle update gr script st i hq⟩

/-- Claim C4 witness: the theorem applied to a two-tick script whose first
batch contains QUIT: at most one tick body is dispatched. -/
theorem c4_witness :
    PEvent.quit ∈ ([[PEvent.quit], [PEvent.other 0]] :
      List (List PEvent)).getD 0 [] ∧
    run_loop (fun s _ => s) id (fun _ => true)
      ({ running := true, gstate := 0 } : LoopState Nat)
      [[PEvent.quit], [PEvent.other 0]] ≤ 0 + 1 :=
  ⟨by decide,
    (c4_loop_exit (fun s _ => s) id (fun _ => true)
      { running := true, gstate := 0 }
      [[PEvent.quit], [PEvent.other 0]] 0 (by decide)).2.2⟩

/-- Claim C5: each polled tick invokes spawn logic exactly when the
spawn-interval countdown has elapsed (the countdown is compared against the
tick's wall-clock delta); on a spawn the countdown is re-read from the
active strategy at the current elapsed time, otherwise it just counts down
by the delta, and the elapsed clock always advances by the delta. -/
theorem c5_spawn_poll (strat : Strategy) (c : SpawnClock) (dt : Nat) :
    ((spawn_tick strat c dt).2 = true ↔ c.timer ≤ dt) ∧
    ((spawn_tick strat c dt).2 = true →
      (spawn_tick strat c dt).1.timer =
        strat.get_spawn_interval (c.elapsed + dt)) ∧
    ((spawn_tick strat c dt).2 = false →
      (spawn_tick strat c dt).1.timer = c.timer - dt) ∧
    (spawn_tick strat c dt).1.elapsed = c.elapsed + dt := by
  by_cases h : c.timer ≤ dt
  · simp [spawn_tick, h]
  · simp [spawn_tick, h]

/-- Claim C5 witness: the theorem applied to the Nightmare strategy with an
expiring countdown: the spawn fires and the countdown is re-read from the
strategy at the new elapsed time. -/
theorem c5_witness :
    (SpawnClock.timer { elapsed := 0, timer := 100 }) ≤ 150 ∧
    (spawn_tick Strategy.nightmare { elapsed := 0, timer := 100 } 150).2 =
      true ∧
    (spawn_tick Strategy.nightmare
        { elapsed := 0, timer := 100 } 150).1.timer =
      Strategy.nightmare.get_spawn_interval (0 + 150) :=
  ⟨by decide,
    (c5_spawn_poll Strategy.nightmare { elapsed := 0, timer := 100 }
      150).1.mpr (by decide),
    (c5_spawn_poll Strategy.nightmare { elapsed := 0, timer := 100 }
      150).2.1 (by decide)⟩

/-- Claim C6: the stats counters are zeroed at `initialize_game`, the
transition to GameOver (which publishes RunEnded) leaves them untouched so
GameOver rendering reads the final run's stats, and after a reset a single
ProjectileDodged event brings `projectiles_dodged` to exactly 1. -/
theorem c6_stats_reset_discipline (g : Game) (t : ℚ)
    (s : StatsObserver) :
    (initialize_game g).stats_observer =
      { hearts_restored := 0, projectiles_dodged := 0 } ∧
    (transition_to_game_over g t).stats_observer = g.stats_observer ∧
    (StatsObserver.update (StatsObserver.reset s)
        GameEvent.projectileDodged).projectiles_dodged = 1 :=
  ⟨rfl, rfl, rfl⟩

/-- Claim C6 witness: the theorem applied to the freshly constructed game
and a final time of 12.5 seconds. -/
theorem c6_witness :
    (initialize_game initialGame).stats_observer =
      { hearts_restored := 0, projectiles_dodged := 0 } ∧
    (transition_to_game_over initialGame (25 / 2)).stats_observer =
      initialGame.stats_observer :=
  ⟨(c6_stats_reset_discipline initialGame (25 / 2)
      { hearts_restored := 0, projectiles_dodged := 0 }).1,
    (c6_stats_reset_discipline initialGame (25 / 2)
      { hearts_restored := 0, projectiles_dodged := 0 }).2.1⟩

/-- Claim C7: the nightmare HUD's next-heart target is computed from the
hardcoded thresholds 75 (first heart) and 150 (thereafter): with 0 restored
hearts the next heart is shown at 75 dodges, with k > 0 at 150 × (k + 1),
and in nightmare mode the HUD receives exactly the dodge counter and this
target. -/
theorem c7_nightmare_heart_thresholds (g : Game) (k : Nat) (hk : 0 < k)
    (hg : g.game_mode_context.strategy = Strategy.nightmare) :
    next_heart_at 0 = 75 ∧
    next_heart_at k = 150 * (k + 1) ∧
    hud_nightmare_stats g =
      some (g.stats_observer.projectiles_dodged,
            next_heart_at g.stats_observer.hearts_restored) := by
  refine ⟨rfl, ?_, ?_⟩
  · unfold next_heart_at hearts_needed
    rw [if_neg (Nat.pos_iff_ne_zero.mp hk)]
  · unfold hud_nightmare_stats GameModeContext.get_mode_name
    rw [hg]
    rfl

/-- Claim C7 witness: the theorem applied to k = 2 and a game whose active
strategy is Nightmare. -/
theorem c7_witness :
    0 < 2 ∧
    (set_game_mode_caught initialGame
        "nightmare").game_mode_context.strategy = Strategy.nightmare ∧
    next_heart_at 2 = 150 * (2 + 1) :=
  ⟨by decide, rfl,
    (c7_nightmare_heart_thresholds
      (set_game_mode_caught initialGame "nightmare") 2 (by decide) rfl).2.1⟩

/-- Claim C8: a failed background load substitutes a solid surface filled
with `BACKGROUND_COLOR` and `_load_assets` returns normally (it is total, so
a missing asset never crashes the game); a succeeding load yields the scaled
file image. -/
theorem c8_background_fallback :
    load_assets LoadResult.error = BackgroundImage.solid BACKGROUND_COLOR ∧
    (∀ path, load_assets (LoadResult.ok path) = BackgroundImage.scaled path) ∧
    BACKGROUND_COLOR = (12, 12, 16) :=
  ⟨rfl, fun _ => rfl, rfl⟩

/-- Claim C8 witness: the theorem's fallback equation at the concrete load
failure, and the success equation at a concrete path. -/
theorem c8_witness :
    load_assets LoadResult.error = BackgroundImage.solid BACKGROUND_COLOR ∧
    load_assets (LoadResult.ok "assets/background.png") =
      BackgroundImage.scaled "assets/background.png" :=
  ⟨c8_background_fallback.1, c8_background_fallback.2.1 "assets/background.png"⟩

/-- Claim C9: after every `initialize_game` call the projectile and
warning-indicator lists are empty, the stats counters are reset, the player
is the instance freshly created through the currently active strategy, and
`current_spawn_interval` equals the active strategy's interval at elapsed
time 0. -/
theorem c9_initialize_game_postconditions (g : Game) :
    (initialize_game g).projectiles = [] ∧
    (initialize_game g).warning_indicators = [] ∧
    (initialize_game g).stats_observer =
      { hearts_restored := 0, projectiles_dodged := 0 } ∧
    (initialize_game g).player =
      some g.game_mode_context.strategy.create_player ∧
    (initialize_game g).current_spawn_interval =
      g.game_mode_context.strategy.get_spawn_interval 0 :=
  ⟨rfl, rfl, rfl, rfl, rfl⟩

/-- Claim C9 witness: the theorem applied to the game after a switch to
Nightmare, where the freshly created player is Nightmare's starting
player. -/
theorem c9_witness :
    (initialize_game (set_game_mode_caught initialGame
        "nightmare")).projectiles = [] ∧
    (initialize_game (set_game_mode_caught initialGame
        "nightmare")).player = some Strategy.nightmare.create_player ∧
    (initialize_game (set_game_mode_caught initialGame
        "nightmare")).current_spawn_interval =
      Strategy.nightmare.get_spawn_interval 0 :=
  ⟨(c9_initialize_game_postconditions
      (set_game_mode_caught initialGame "nightmare")).1,
    (c9_initialize_game_postconditions
      (set_game_mode_caught initialGame "nightmare")).2.2.2.1,
    (c9_initialize_game_postconditions
      (set_game_mode_caught initialGame "nightmare")).2.2.2.2⟩

/-- Claim C10: `set_game_mode` is atomic on error: for any mode name other
than "normal" and "nightmare" it raises before performing any mutation, so
the whole game object, in particular the active strategy of the context and
the mode recorded in `GameState`, is exactly what it was before the call. -/
theorem c10_set_game_mode_atomic (g : Game) (mode : String)
    (h1 : mode ≠ "normal") (h2 : mode ≠ "nightmare") :
    (set_game_mode g mode).isOk = false ∧
    set_game_mode_caught g mode = g ∧
    (set_game_mode_caught g mode).game_mode_context.strategy =
      g.game_mode_context.strategy ∧
    (set_game_mode_caught g mode).game_state.mode = g.game_state.mode := by
  have hmain := set_game_mode_unknown g mode h1 h2
  have hcaught : set_game_mode_caught g mode = g := by
    unfold set_game_mode_caught
    rw [hmain]
  refine ⟨?_, hcaught, ?_, ?_⟩
  · rw [hmain]
    rfl
  · rw [hcaught]
  · rw [hcaught]

/-- Claim C10 witness: the theorem applied to the mode name "extreme" on the
freshly constructed game. -/
theorem c10_witness :
    ("extreme" ≠ "normal") ∧ ("extreme" ≠ "nightmare") ∧
    set_game_mode_caught initialGame "extreme" = initialGame :=
  ⟨by decide, by decide,
    (c10_set_game_mode_atomic initialGame "extreme" (by decide)
      (by decide)).2.1⟩

end Dodge
